import Mathlib

/-!
Shallow embedding of the client-side logic of the stand-up facilitator
frontend: the join page (name validation and the join action) and the
meeting-room session controller (connection lifecycle, participant and
track event handlers, transport toggles, teardown).  Network and SDK
effects are made explicit: each fallible external call is passed in as a
result value or a result-producing function, and the number of network
requests issued is returned alongside the new state.
-/

namespace StandupFacilitator

/-! ## Data model: join page (JoinMeetingPage.js) -/

/-- Meeting information returned by the meeting-info endpoint:
roomName, status ("active" or "inactive") and the agent flag. -/
structure MeetingInfo where
  roomName : String
  status : String
  agentActive : Bool
deriving DecidableEq, Repr

/-- Participant record optionally carried inside a validation response. -/
structure ParticipantRecord where
  name : String
  isReturning : Bool
  project : Option String
  role : Option String
deriving DecidableEq, Repr

/-- Validation response body from the validate-participant endpoint. -/
structure ValidationResult where
  valid : Bool
  message : String
  participant : Option ParticipantRecord
deriving DecidableEq, Repr

/-- React state of the join page component. -/
structure JoinState where
  name : String
  isValidating : Bool
  validationResult : Option ValidationResult
  meetingInfo : Option MeetingInfo
  isLoading : Bool
deriving DecidableEq, Repr

/-- JS string trim, embedded structurally on the character list: strips
leading and trailing whitespace characters. -/
def jsTrim (s : String) : String :=
  String.mk (((s.data.dropWhile Char.isWhitespace).reverse.dropWhile
    Char.isWhitespace).reverse)

/-- Observable outcome of one run of validateParticipant: how many
network requests were issued, which alert dialogs were shown, and the
resulting component state. -/
structure ValidateEffect where
  networkCalls : Nat
  alerts : List String
  state : JoinState
deriving DecidableEq, Repr

/-- validateParticipant from JoinMeetingPage.js.  The environment
response models the fetch of the validate-participant endpoint: ok with
the parsed body, or error for a transport failure.  An empty trimmed
name alerts and returns before any request; otherwise one request is
issued, a parsed body replaces validationResult, and a transport
failure alerts without touching validationResult; isValidating is reset
in the finally block either way. -/
def validateParticipant (s : JoinState) (response : Except Unit ValidationResult) :
    ValidateEffect :=
  if jsTrim s.name == "" then
    { networkCalls := 0, alerts := ["Please enter your name"], state := s }
  else
    match response with
    | .ok result =>
      { networkCalls := 1, alerts := [],
        state := { s with validationResult := some result, isValidating := false } }
    | .error _ =>
      { networkCalls := 1,
        alerts := ["Failed to validate participant. Please try again."],
        state := { s with isValidating := false } }

/-- Room identifier used for navigation: meetingInfo roomName with a
falsy-value fallback to the default room, as in
`meetingInfo?.roomName || 'daily-standup-room'`. -/
def roomNameOf (mi : Option MeetingInfo) : String :=
  match mi with
  | some info => if info.roomName == "" then "daily-standup-room" else info.roomName
  | none => "daily-standup-room"

/-- Outcome of one invocation of joinMeeting: either it ran
validateParticipant and returned, or it navigated to the meeting route
with the given name and room parameters, or it faulted (property access
on a missing participant record). -/
inductive JoinOutcome where
  | validated (eff : ValidateEffect)
  | navigated (name : String) (room : String)
  | fault
deriving DecidableEq, Repr

/-- joinMeeting from JoinMeetingPage.js.  With no valid validationResult
it awaits validateParticipant and returns; otherwise it navigates with
the validated participant name and the meeting room identifier. -/
def joinMeeting (s : JoinState) (response : Except Unit ValidationResult) :
    JoinOutcome :=
  match s.validationResult with
  | none => .validated (validateParticipant s response)
  | some vr =>
    if vr.valid then
      match vr.participant with
      | some p => .navigated p.name (roomNameOf s.meetingInfo)
      | none => .fault
    else
      .validated (validateParticipant s response)

/-- Whether meetingInfo reports an active meeting; a missing
meetingInfo compares unequal to the active status. -/
def meetingStatusActive (mi : Option MeetingInfo) : Bool :=
  match mi with
  | some info => info.status == "active"
  | none => false

/-- Disabled condition of the join button:
`isValidating || !name.trim() || meetingInfo?.status !== 'active'`. -/
def joinButtonDisabled (s : JoinState) : Bool :=
  s.isValidating || jsTrim s.name == "" || !(meetingStatusActive s.meetingInfo)

/-! ## Data model: meeting room (MeetingRoom.js) -/

/-- A remote participant handle; identity is the key used everywhere. -/
structure Participant where
  identity : String
deriving DecidableEq, Repr

/-- The SDK room object, with the options it is constructed with. -/
structure Room where
  adaptiveStream : Bool
  dynacast : Bool
deriving DecidableEq, Repr

/-- React state of the meeting-room component, plus the roomRef ref. -/
structure RoomState where
  isConnected : Bool
  isConnecting : Bool
  participants : List Participant
  isAudioEnabled : Bool
  isVideoEnabled : Bool
  isSpeakerEnabled : Bool
  error : Option String
  connectionStatus : String
  roomRef : Option Room
deriving DecidableEq, Repr

/-- Initial component state on mount. -/
def initialRoomState : RoomState :=
  { isConnected := false
    isConnecting := false
    participants := []
    isAudioEnabled := true
    isVideoEnabled := true
    isSpeakerEnabled := true
    error := none
    connectionStatus := "Initializing..."
    roomRef := none }

/-- ParticipantConnected handler: appends the participant to the state
list, `setParticipants(prev => [...prev, participant])`. -/
def onParticipantConnected (prev : List Participant) (p : Participant) :
    List Participant :=
  prev ++ [p]

/-- ParticipantDisconnected handler: filters out the identity. -/
def onParticipantDisconnected (prev : List Participant) (p : Participant) :
    List Participant :=
  prev.filter (fun q => !(q.identity == p.identity))

/-- Delivers a sequence of ParticipantConnected events to the handler. -/
def processJoins (init : List Participant) (events : List Participant) :
    List Participant :=
  events.foldl onParticipantConnected init

/-- Number of entries in the collection carrying a given identity. -/
def countIdentity (ps : List Participant) (id : String) : Nat :=
  (ps.filter (fun p => p.identity == id)).length

/-- Environment of one connectToRoom attempt: the token fetch outcome,
the parsed token body, and the results of room.connect and of
enableCameraAndMicrophone. -/
structure ConnectEnv where
  tokenOk : Bool
  tokenUrl : String
  tokenValue : String
  connectResult : Except String Unit
  enableResult : Except String Unit
deriving Repr

/-- The catch branch of connectToRoom: record the error message, stop
the connecting spinner and show the failed status. -/
def failConnect (s : RoomState) (msg : String) : RoomState :=
  { s with error := some msg, isConnecting := false,
           connectionStatus := "Connection failed" }

/-- connectToRoom from MeetingRoom.js, returning the resulting state
and the number of token requests issued.  The try block sets the
connecting flags, rechecks the name, issues the token request (throwing
on a non-ok response), constructs the Room, stores it in roomRef, then
awaits connect and media enablement; any throw lands in the catch
branch.  Event callbacks are registered on the room and modelled as the
separate handler functions in this file. -/
def connectToRoom (participantName : String) (s : RoomState) (env : ConnectEnv) :
    RoomState × Nat :=
  let s0 := { s with isConnecting := true,
                     connectionStatus := "Getting access token..." }
  if participantName == "" || jsTrim participantName == "" then
    (failConnect s0 "Participant name is required", 0)
  else if !env.tokenOk then
    (failConnect s0 "Failed to get access token", 1)
  else
    let s1 := { s0 with connectionStatus := "Connecting to meeting room..." }
    let s2 := { s1 with roomRef := some { adaptiveStream := true, dynacast := true } }
    match env.connectResult with
    | .error e => (failConnect s2 e, 1)
    | .ok _ =>
      match env.enableResult with
      | .error e => (failConnect s2 e, 1)
      | .ok _ => (s2, 1)

/-- The mount effect: with an empty or whitespace-only name set the
error and stop; otherwise run connectToRoom. -/
def mountEffect (participantName : String) (s : RoomState) (env : ConnectEnv) :
    RoomState × Nat :=
  if participantName == "" || jsTrim participantName == "" then
    ({ s with error := some "Participant name is required" }, 0)
  else
    connectToRoom participantName s env

/-- Observable SDK calls made by teardown. -/
inductive SdkAction where
  | disconnect
deriving DecidableEq, Repr

/-- disconnectFromRoom: if a room is stored, disconnect it and clear
the ref; otherwise do nothing. -/
def disconnectFromRoom (s : RoomState) : RoomState × List SdkAction :=
  match s.roomRef with
  | some _ => ({ s with roomRef := none }, [SdkAction.disconnect])
  | none => (s, [])

/-- toggleAudio: without a room it returns unchanged; otherwise it
awaits setMicrophoneEnabled with the negated current flag (written as
the two-branch conditional of the source) and flips the displayed flag
only when that call returns, leaving it unchanged when it throws. -/
def toggleAudio (s : RoomState) (setMic : Bool → Except String Unit) : RoomState :=
  match s.roomRef with
  | none => s
  | some _ =>
    let call := if s.isAudioEnabled then setMic false else setMic true
    match call with
    | .ok _ => { s with isAudioEnabled := !s.isAudioEnabled }
    | .error _ => s

/-- toggleVideo: same shape as toggleAudio, over the camera flag. -/
def toggleVideo (s : RoomState) (setCam : Bool → Except String Unit) : RoomState :=
  match s.roomRef with
  | none => s
  | some _ =>
    let call := if s.isVideoEnabled then setCam false else setCam true
    match call with
    | .ok _ => { s with isVideoEnabled := !s.isVideoEnabled }
    | .error _ => s

/-- An audio playback element in the DOM. -/
structure AudioElem where
  elemId : Nat
  muted : Bool
deriving DecidableEq, Repr

/-- toggleSpeaker: flips the speaker flag and assigns to the muted
property of every audio element the captured pre-toggle flag value. -/
def toggleSpeaker (isSpeakerEnabled : Bool) (audioElements : List AudioElem) :
    Bool × List AudioElem :=
  (!isSpeakerEnabled,
   audioElements.map (fun a => { a with muted := isSpeakerEnabled }))

/-- Kind of a media track. -/
inductive TrackKind where
  | video
  | audio
deriving DecidableEq, Repr

/-- The remoteVideos registry: identity to stored video element id. -/
def lookupVideo (reg : List (String × Nat)) (id : String) : Option Nat :=
  match reg.find? (fun e => e.1 == id) with
  | some e => some e.2
  | none => none

set_option linter.unusedVariables false

/-- TrackUnsubscribed handler: detaches the track, and when the
registry holds an element for the identity of the participant, removes
that element and deletes the registry entry.  The track kind is unused
beyond logging.  Returns the new registry and the removed element. -/
def onTrackUnsubscribed (reg : List (String × Nat)) (kind : TrackKind)
    (identity : String) : List (String × Nat) × Option Nat :=
  match lookupVideo reg identity with
  | some el => (reg.filter (fun e => !(e.1 == identity)), some el)
  | none => (reg, none)

/-! ## Concrete fixtures used by witnesses and counterexamples -/

/-- An active meeting with the agent present. -/
def exMeetingInfo : MeetingInfo :=
  { roomName := "standup", status := "active", agentActive := true }

/-- A successful validation body for a new member named Dana. -/
def exValidResult : ValidationResult :=
  { valid := true, message := "Welcome!",
    participant := some { name := "Dana", isReturning := false,
                          project := none, role := none } }

/-- Join page state with a typed name and no prior validation. -/
def exJoinState : JoinState :=
  { name := "Dana", isValidating := false, validationResult := none,
    meetingInfo := some exMeetingInfo, isLoading := false }

/-- Join page state with a whitespace-only name and a prior result. -/
def exWsJoinState : JoinState :=
  { name := "   ", isValidating := false,
    validationResult := some exValidResult,
    meetingInfo := some exMeetingInfo, isLoading := false }

/-- Join page state while the meeting is reported inactive. -/
def exInactiveJoinState : JoinState :=
  { name := "Dana", isValidating := false, validationResult := none,
    meetingInfo := some { roomName := "standup", status := "inactive",
                          agentActive := false },
    isLoading := false }

/-- Room component state holding an open session. -/
def exConnectedRoomState : RoomState :=
  { initialRoomState with roomRef := some { adaptiveStream := true, dynacast := true } }

/-- Connection environment whose token request returns a non-ok response. -/
def exFailEnv : ConnectEnv :=
  { tokenOk := false, tokenUrl := "", tokenValue := "",
    connectResult := Except.ok (), enableResult := Except.ok () }

/-! ## Claims -/

/-- C1: the ParticipantConnected handler appends unconditionally, so a
sequence repeating the identity alice leaves two entries for alice in
the participant collection, violating the at-most-one-entry-per-identity
property the claim states. -/
theorem C1_participant_joined_duplicates :
    countIdentity
      (processJoins [] [{ identity := "alice" }, { identity := "alice" }])
      "alice" = 2 := by
  decide

/-- C2 counterexample: with no ValidationResult present and a backend
response that validates Dana, the joinMeeting invocation only runs
validateParticipant (which stores the valid result) and does not
navigate in the same invocation. -/
theorem C2_join_no_navigation_counterexample :
    joinMeeting exJoinState (Except.ok exValidResult)
      = JoinOutcome.validated (validateParticipant exJoinState (Except.ok exValidResult))
    ∧ (validateParticipant exJoinState (Except.ok exValidResult)).state.validationResult
      = some exValidResult
    ∧ exValidResult.valid = true
    ∧ joinMeeting exJoinState (Except.ok exValidResult)
      ≠ JoinOutcome.navigated "Dana" "standup" := by
  refine ⟨rfl, by decide, by decide, by decide⟩

/-- C2 (amended): joinMeeting invoked with no valid ValidationResult
runs validateParticipant and returns without navigating, even when the
response is valid; navigation happens only on an invocation that finds
a valid ValidationResult already stored, and then carries its
participant name and the meeting room identifier with the default
fallback. -/
theorem C2_joinMeeting_behavior (s : JoinState) (response : Except Unit ValidationResult) :
    ((match s.validationResult with
      | some vr => vr.valid
      | none => false) = false →
      joinMeeting s response = JoinOutcome.validated (validateParticipant s response))
    ∧ (∀ vr p, s.validationResult = some vr → vr.valid = true →
        vr.participant = some p →
        joinMeeting s response
          = JoinOutcome.navigated p.name (roomNameOf s.meetingInfo)) := by
  constructor
  · intro h
    cases hvr : s.validationResult with
    | none => simp [joinMeeting, hvr]
    | some vr =>
      simp [hvr] at h
      simp [joinMeeting, hvr, h]
  · intro vr p hvr hvalid hp
    simp [joinMeeting, hvr, hvalid, hp]

/-- C2 witness: the amended theorem at the concrete counterexample
state: the invocation validates and returns. -/
theorem C2_joinMeeting_behavior_witness :
    joinMeeting exJoinState (Except.ok exValidResult)
      = JoinOutcome.validated (validateParticipant exJoinState (Except.ok exValidResult)) :=
  (C2_joinMeeting_behavior exJoinState (Except.ok exValidResult)).1 (by decide)

/-- C3: for an empty or whitespace-only trimmed name,
validateParticipant issues no network request and leaves the stored
validationResult unchanged, whatever the backend would have answered. -/
theorem C3_validate_empty_name (s : JoinState) (response : Except Unit ValidationResult)
    (h : jsTrim s.name = "") :
    (validateParticipant s response).networkCalls = 0
    ∧ (validateParticipant s response).state.validationResult = s.validationResult := by
  simp [validateParticipant, h]

/-- C3 witness: the whitespace-name state with a transport-failing
backend issues no request and keeps the stored result. -/
theorem C3_validate_empty_name_witness :
    (validateParticipant exWsJoinState (Except.error ())).networkCalls = 0
    ∧ (validateParticipant exWsJoinState (Except.error ())).state.validationResult
      = exWsJoinState.validationResult :=
  C3_validate_empty_name exWsJoinState (Except.error ()) (by decide)

/-- C4: with a session open, toggleAudio leaves the displayed
microphone flag unchanged whenever the enable/disable call throws, and
flips it exactly when the call succeeds. -/
theorem C4_toggleAudio_failure_keeps_state (s : RoomState)
    (setMic : Bool → Except String Unit) (h : s.roomRef ≠ none) :
    ((∃ e, (if s.isAudioEnabled then setMic false else setMic true) = Except.error e) →
      (toggleAudio s setMic).isAudioEnabled = s.isAudioEnabled)
    ∧ ((if s.isAudioEnabled then setMic false else setMic true) = Except.ok () →
      (toggleAudio s setMic).isAudioEnabled = !s.isAudioEnabled) := by
  obtain ⟨r, hr⟩ : ∃ r, s.roomRef = some r := by
    cases hx : s.roomRef with
    | none => exact absurd hx h
    | some r => exact ⟨r, rfl⟩
  constructor
  · rintro ⟨e, he⟩
    simp [toggleAudio, hr, he]
  · intro hok
    simp [toggleAudio, hr, hok]

/-- C4 witness: an open session whose microphone call always throws
keeps the displayed flag. -/
theorem C4_toggleAudio_witness :
    (toggleAudio exConnectedRoomState (fun _ => Except.error "failed")).isAudioEnabled
      = exConnectedRoomState.isAudioEnabled :=
  (C4_toggleAudio_failure_keeps_state exConnectedRoomState
      (fun _ => Except.error "failed") (by decide)).1 ⟨"failed", ite_self _⟩

/-- C5: disconnectFromRoom closes an open session, is a no-op when no
session exists, and calling it twice in succession makes the second
call do nothing from any starting state. -/
theorem C5_disconnect_idempotent (s : RoomState) :
    disconnectFromRoom (disconnectFromRoom s).1 = ((disconnectFromRoom s).1, [])
    ∧ (s.roomRef = none → disconnectFromRoom s = (s, []))
    ∧ (∀ r, s.roomRef = some r →
        (disconnectFromRoom s).1.roomRef = none
        ∧ (disconnectFromRoom s).2 = [SdkAction.disconnect]) := by
  cases hx : s.roomRef with
  | none =>
    refine ⟨by simp [disconnectFromRoom, hx], fun _ => by simp [disconnectFromRoom, hx], ?_⟩
    intro r hr
    simp at hr
  | some r =>
    refine ⟨by simp [disconnectFromRoom, hx], ?_, ?_⟩
    · intro hnone
      simp at hnone
    · intro r2 _
      exact ⟨by simp [disconnectFromRoom, hx], by simp [disconnectFromRoom, hx]⟩

/-- C5 witness: starting from an open session, teardown clears the
session reference and a second teardown does nothing. -/
theorem C5_disconnect_witness :
    disconnectFromRoom (disconnectFromRoom exConnectedRoomState).1
      = ((disconnectFromRoom exConnectedRoomState).1, [])
    ∧ (disconnectFromRoom exConnectedRoomState).1.roomRef = none :=
  ⟨(C5_disconnect_idempotent exConnectedRoomState).1,
   ((C5_disconnect_idempotent exConnectedRoomState).2.2
      { adaptiveStream := true, dynacast := true } (by decide)).1⟩

/-- C6: when the token request during connectToRoom returns a non-ok
response, the component reaches the failed state with the error
message "Failed to get access token" and the session reference stays
unset; exactly one request was issued. -/
theorem C6_token_failure (name : String) (s : RoomState) (env : ConnectEnv)
    (hname : jsTrim name ≠ "") (htok : env.tokenOk = false)
    (href : s.roomRef = none) :
    (connectToRoom name s env).1.error = some "Failed to get access token"
    ∧ (connectToRoom name s env).1.roomRef = none
    ∧ (connectToRoom name s env).1.isConnecting = false
    ∧ (connectToRoom name s env).1.connectionStatus = "Connection failed"
    ∧ (connectToRoom name s env).2 = 1 := by
  have hne : (name == "") = false := by
    rcases eq_or_ne name "" with h | h
    · subst h
      exact absurd (by decide) hname
    · simpa using h
  have htr : (jsTrim name == "") = false := by simpa using hname
  simp [connectToRoom, failConnect, hne, htr, htok, href]

/-- C6 witness: a concrete fresh mount whose token request fails. -/
theorem C6_token_failure_witness :
    (connectToRoom "Dana" initialRoomState exFailEnv).1.error
      = some "Failed to get access token"
    ∧ (connectToRoom "Dana" initialRoomState exFailEnv).1.roomRef = none
    ∧ (connectToRoom "Dana" initialRoomState exFailEnv).1.isConnecting = false
    ∧ (connectToRoom "Dana" initialRoomState exFailEnv).1.connectionStatus
      = "Connection failed"
    ∧ (connectToRoom "Dana" initialRoomState exFailEnv).2 = 1 :=
  C6_token_failure "Dana" initialRoomState exFailEnv (by decide) rfl rfl

/-- C7: entering the room view with an empty or whitespace-only name
sets the descriptive error and issues no token request at all. -/
theorem C7_mount_empty_name (name : String) (s : RoomState) (env : ConnectEnv)
    (h : jsTrim name = "") :
    mountEffect name s env
      = ({ s with error := some "Participant name is required" }, 0) := by
  simp [mountEffect, h]

/-- C7 witness: a whitespace-only name fails closed with no request. -/
theorem C7_mount_empty_name_witness :
    mountEffect "   " initialRoomState exFailEnv
      = ({ initialRoomState with error := some "Participant name is required" }, 0) :=
  C7_mount_empty_name "   " initialRoomState exFailEnv (by decide)

/-- C8: the join control is disabled exactly when validation is in
flight, the trimmed name is empty, or meetingInfo does not report the
meeting active; in particular an inactive meeting keeps it disabled for
every name and validation state. -/
theorem C8_join_disabled (s : JoinState) :
    (joinButtonDisabled s = true ↔
      (s.isValidating = true ∨ jsTrim s.name = ""
        ∨ meetingStatusActive s.meetingInfo = false))
    ∧ (meetingStatusActive s.meetingInfo = false → joinButtonDisabled s = true) := by
  constructor
  · simp [joinButtonDisabled, or_assoc]
  · intro h
    simp [joinButtonDisabled, h]

/-- C8 witness: with the meeting reported inactive the control is
disabled even with a nonempty name and idle validation. -/
theorem C8_join_disabled_witness :
    joinButtonDisabled exInactiveJoinState = true :=
  (C8_join_disabled exInactiveJoinState).2 (by decide)

/-- Helper: after filtering out every entry with the given identity,
the registry lookup for that identity finds nothing. -/
theorem lookupVideo_filter_self (reg : List (String × Nat)) (id : String) :
    lookupVideo (reg.filter (fun e => !(e.1 == id))) id = none := by
  induction reg with
  | nil => rfl
  | cons hd tl ih =>
    cases hbeq : (hd.1 == id) with
    | true => simpa [List.filter_cons, hbeq] using ih
    | false => simpa [List.filter_cons, hbeq, lookupVideo, List.find?_cons] using ih

/-- C9: the TrackUnsubscribed handler removes the registered video
element of the participant and deletes its registry entry whatever the
track kind is; in particular an audio unsubscription behaves the same
way, since the handler never inspects the kind. -/
theorem C9_track_unsubscribed_removes (reg : List (String × Nat)) (kind : TrackKind)
    (id : String) (el : Nat) (h : lookupVideo reg id = some el) :
    (onTrackUnsubscribed reg kind id).2 = some el
    ∧ lookupVideo (onTrackUnsubscribed reg kind id).1 id = none
    ∧ onTrackUnsubscribed reg kind id = onTrackUnsubscribed reg TrackKind.audio id := by
  refine ⟨?_, ?_, rfl⟩
  · simp [onTrackUnsubscribed, h]
  · simp only [onTrackUnsubscribed, h]
    exact lookupVideo_filter_self reg id

/-- C9 witness: an audio-track unsubscription from a participant with
a registered video element removes it and clears the entry. -/
theorem C9_track_unsubscribed_witness :
    (onTrackUnsubscribed [("alice", 7)] TrackKind.audio "alice").2 = some 7
    ∧ lookupVideo (onTrackUnsubscribed [("alice", 7)] TrackKind.audio "alice").1
        "alice" = none :=
  ⟨(C9_track_unsubscribed_removes [("alice", 7)] TrackKind.audio "alice" 7 (by decide)).1,
   (C9_track_unsubscribed_removes [("alice", 7)] TrackKind.audio "alice" 7 (by decide)).2.1⟩

/-- C10: toggleSpeaker flips the speaker flag and writes the pre-toggle
flag value into the muted property of every audio element in the DOM,
so each element ends muted exactly when the new state is disabled. -/
theorem C10_toggleSpeaker_mutes (en : Bool) (elems : List AudioElem) :
    (toggleSpeaker en elems).1 = !en
    ∧ ∀ a ∈ (toggleSpeaker en elems).2,
        a.muted = en ∧ (a.muted = true ↔ (toggleSpeaker en elems).1 = false) := by
  refine ⟨rfl, ?_⟩
  intro a ha
  simp only [toggleSpeaker, List.mem_map] at ha
  obtain ⟨b, _, rfl⟩ := ha
  refine ⟨rfl, ?_⟩
  cases en <;> simp [toggleSpeaker]

/-- C10 witness: toggling the speaker off mutes a concrete element. -/
theorem C10_toggleSpeaker_witness :
    (toggleSpeaker true [{ elemId := 0, muted := false }]).1 = !true
    ∧ ({ elemId := 0, muted := true } : AudioElem).muted = true :=
  ⟨(C10_toggleSpeaker_mutes true [{ elemId := 0, muted := false }]).1,
   ((C10_toggleSpeaker_mutes true [{ elemId := 0, muted := false }]).2
      { elemId := 0, muted := true } (by decide)).1⟩

end StandupFacilitator
